import Mathlib

/-!
Verification development for the CAPrint return-label mailing pipeline.

The embedding models the two HTTP handlers of the repository:

* `api/mail-label.js` (the orchestrator: Basic-auth gate, field validation,
  label acquisition via `api/create-label`, PDF composition geometry, Lob
  letter submission, and the Sheets audit webhook), and
* `api/create-label.js` (the SERA token broker, the carrier label call and
  its optional Sheets logging guarded by `skipLogging`).

External network calls are represented by a `World` record supplying each
call's outcome; the handlers are pure functions from configuration, request
and world to a response plus an ordered trace of attempted effects.
Numbers are modelled as rationals, JavaScript `undefined`/`null`/NaN as
`Option`, and JS truthiness of strings by an explicit `truthyS`.
-/

set_option maxRecDepth 8000

namespace CAPrint

/-- JSON-like values appearing in webhook payloads. -/
inductive JVal where
  | null
  | str (s : String)
  | num (q : ℚ)
  | bool (b : Bool)
deriving DecidableEq

/-- An audit payload is the ordered key/value list of the JS object literal
posted to the Sheets webhook. -/
abbrev AuditPayload := List (String × JVal)

/-- Keys of a payload, in order. -/
def payloadKeys (p : AuditPayload) : List String := p.map Prod.fst

/-- First value bound to a key in a payload (JS object field access). -/
def lookupKey (p : AuditPayload) (k : String) : Option JVal :=
  match p with
  | [] => none
  | (k', v) :: r => if k' = k then some v else lookupKey r k

/-- Option ℚ to JSON value: `null` for absent, the number otherwise. -/
def optNumJ : Option ℚ → JVal
  | none => JVal.null
  | some q => JVal.num q

/-- JS string truthiness of a possibly-absent string: `undefined`, `null`
and the empty string are falsy. -/
def truthyS : Option String → Bool
  | none => false
  | some s => s != ""

/-- JS `a || b` where `a` is a possibly-absent string and `b` a string. -/
def jsOrS (a : Option String) (b : String) : String :=
  if truthyS a then a.getD "" else b

/-- JS `a || b` on two possibly-absent strings, `none` when both are falsy
(models `x.f || x.g || null`). -/
def jsOrO (a b : Option String) : Option String :=
  if truthyS a then a else if truthyS b then b else none

/-- JS `a || null`: an empty or absent string becomes `null`. -/
def jsOrNull (a : Option String) : Option String :=
  if truthyS a then a else none

/-- JS `String(x || "")` for a string-or-absent field. -/
def orEmpty (o : Option String) : String := o.getD ""

/-- Whitespace characters removed by `String.prototype.trim` (ASCII part). -/
def isSpaceChar (c : Char) : Bool := c = ' ' || c = '\t' || c = '\n' || c = '\r'

/-- JS `trim` on a character list. -/
def trimChars (l : List Char) : List Char :=
  ((l.dropWhile isSpaceChar).reverse.dropWhile isSpaceChar).reverse

/-- JS `s.trim()`. -/
def trimStr (s : String) : String := String.mk (trimChars s.toList)

/-- `requireField(body, key)` from both handlers: `undefined`/`null` gives
`null`; otherwise the value is stringified and trimmed, and an empty result
gives `null`. -/
def requireField : Option String → Option String
  | none => none
  | some v => if trimStr v = "" then none else some (trimStr v)

/-- `requireField` result defaulted to the empty string (`name || ""`). -/
def rfD (o : Option String) : String := (requireField o).getD ""

/-- Value of a base64 alphabet character, `none` for any other character
(Node's forgiving decoder skips characters outside the alphabet). -/
def b64val (c : Char) : Option Nat :=
  if 'A' ≤ c ∧ c ≤ 'Z' then some (c.toNat - 65)
  else if 'a' ≤ c ∧ c ≤ 'z' then some (c.toNat - 97 + 26)
  else if '0' ≤ c ∧ c ≤ '9' then some (c.toNat - 48 + 52)
  else if c = '+' then some 62
  else if c = '/' then some 63
  else none

/-- Reassemble 6-bit base64 values into bytes; a trailing lone value is
dropped, as in Node's decoder. -/
def b64chunk : List Nat → List Nat
  | a :: b :: c :: d :: rest =>
      (a * 4 + b / 16) :: ((b % 16) * 16 + c / 4) :: ((c % 4) * 64 + d) :: b64chunk rest
  | [a, b] => [a * 4 + b / 16]
  | [a, b, c] => [a * 4 + b / 16, (b % 16) * 16 + c / 4]
  | _ => []

/-- `Buffer.from(s, "base64")`: characters outside the alphabet (including
padding) are ignored, the rest decodes to bytes. -/
def b64decode (cs : List Char) : List Nat :=
  b64chunk (cs.filterMap b64val)

/-- Split a byte list at the first colon (`decoded.indexOf(":")`),
returning the user and password parts; `none` when no colon occurs. -/
def splitColon : List Nat → Option (List Nat × List Nat)
  | [] => none
  | b :: rest =>
      if b = 58 then some ([], rest)
      else (splitColon rest).map (fun q => (b :: q.1, q.2))

/-- Network interactions attempted while handling one request. An
`auditSkip` records that the audit sink was invoked but performed no
network I/O because the webhook URL is unconfigured. -/
inductive Effect where
  | labelFetch
  | lobFetch
  | tokenFetch
  | carrierFetch
  | hrefFetch
  | auditNet (p : AuditPayload)
  | auditSkip (p : AuditPayload)
deriving DecidableEq

/-- Whether an effect performs actual network I/O. -/
def networkEffect : Effect → Bool
  | Effect.auditSkip _ => false
  | _ => true

/-- Payloads of the audit attempts in a trace, in order. -/
def auditPayloads : List Effect → List AuditPayload
  | [] => []
  | Effect.auditNet p :: r => p :: auditPayloads r
  | Effect.auditSkip p :: r => p :: auditPayloads r
  | _ :: r => auditPayloads r

/-- Outcome of one fetch to the Sheets webhook transport. -/
inductive Transport where
  | ok (httpOk : Bool) (status : Nat)
  | netError (e : String)
deriving DecidableEq

/-- Return value of `postToSheets`: `skipped` is JS `null` (no webhook URL),
`posted` is `{ok, status}`, `errored` is `{ok:false, error}`. -/
inductive SheetsResult where
  | skipped
  | posted (ok : Bool) (status : Nat)
  | errored (e : String)
deriving DecidableEq

/-- The single audit-attempt effect produced by invoking the sink. -/
def auditEffect (url : String) (p : AuditPayload) : Effect :=
  if url = "" then Effect.auditSkip p else Effect.auditNet p

/-- `postToSheets(webhookUrl, payload)` from `api/mail-label.js` (and,
identically, `api/create-label.js`): with no URL it returns `null` without
any network I/O; a transport error is captured in the returned value and
never thrown to the caller. -/
def postToSheets (url : String) (t : Transport) (p : AuditPayload) :
    SheetsResult × List Effect :=
  if url = "" then (SheetsResult.skipped, [Effect.auditSkip p])
  else
    match t with
    | Transport.ok hok st => (SheetsResult.posted hok st, [Effect.auditNet p])
    | Transport.netError e => (SheetsResult.errored e, [Effect.auditNet p])

/-- Request body fields read by the handlers. String-valued fields are
`Option String` (`none` = absent/`null`); the weight fields carry the
numeric interpretation `Number(...)` with `none` for absent or NaN.
`skipLogging` is `body?.skipLogging === true`. -/
structure Body where
  name : Option String
  address1 : Option String
  address2 : Option String
  city : Option String
  state : Option String
  zip : Option String
  phone : Option String
  deviceType : Option String
  deviceSerial : Option String
  returnReason : Option String
  email : Option String
  weightOz : Option ℚ
  weightLbs : Option ℚ
  skipLogging : Bool
deriving DecidableEq

/-- Map a required-field name to the body field it denotes. -/
def fieldOf (b : Body) : String → Option String
  | "name" => b.name
  | "address1" => b.address1
  | "address2" => b.address2
  | "city" => b.city
  | "state" => b.state
  | "zip" => b.zip
  | "phone" => b.phone
  | "deviceType" => b.deviceType
  | _ => none

/-- The required fields, in the declaration order of both handlers. -/
def requiredFields : List String :=
  ["name", "address1", "city", "state", "zip", "phone", "deviceType"]

/-- Result of a JS `fetch` followed by `resp.json().catch(() => null)`:
`ok` is the 2xx flag, `json` is `none` when the body failed to parse. -/
structure FetchRes (α : Type) where
  ok : Bool
  status : Nat
  json : Option α
deriving DecidableEq

/-- Predicate `0 < Number(x)` guarding the mail-label weight branches. -/
def posNum (o : Option ℚ) : Bool :=
  match o with
  | some q => decide (0 < q)
  | none => false

namespace MailLabel

/-- `normalizeWeightOz` from `api/mail-label.js`: a finite positive
`weightOz` wins, else a finite positive `weightLbs` times 16, else `null`. -/
def normalizeWeightOz (oz lbs : Option ℚ) : Option ℚ :=
  if posNum oz then oz
  else if posNum lbs then some (lbs.getD 0 * 16)
  else none

/-- `parseBasicAuth` from `api/mail-label.js`: the Authorization header must
start with `"Basic "`; the rest is trimmed, base64-decoded, and split at the
first colon into user and password bytes. -/
def parseBasicAuth (header : Option String) : Option (List Nat × List Nat) :=
  match header with
  | none => none
  | some h =>
      if List.isPrefixOf "Basic ".toList h.toList then
        splitColon (b64decode (trimChars (h.toList.drop 6)))
      else none

/-- Layout computed by `buildInstructionsPlusLabelPdf` for the label page. -/
structure Layout where
  scale : ℚ
  drawW : ℚ
  drawH : ℚ
  x : ℚ
  y : ℚ
deriving DecidableEq

/-- Uniform scale `Math.min(420 / width, 600 / height)`. -/
def labelScale (w h : ℚ) : ℚ := min (420 / w) (600 / h)

/-- The geometric part of `buildInstructionsPlusLabelPdf`: the embedded
label page of size `w × h` is scaled by `labelScale` and centered on the
612 × 792 letter page. -/
def composeLayout (w h : ℚ) : Layout :=
  { scale := labelScale w h
    drawW := w * labelScale w h
    drawH := h * labelScale w h
    x := (612 - w * labelScale w h) / 2
    y := (792 - h * labelScale w h) / 2 }

/-- Parsed JSON of the `/api/create-label` response as read by mail-label. -/
structure LabelJson where
  ok : Bool
  labelData : Option String
  trackingNumber : Option String
  tracking_number : Option String
  service_type : Option String
  label_id : Option String
  shipment_cost_total : Option ℚ
deriving DecidableEq

instance : Inhabited LabelJson :=
  ⟨⟨false, none, none, none, none, none, none⟩⟩

/-- Parsed JSON of the Lob letters response. -/
structure LobJson where
  id : Option String
  status : Option String
deriving DecidableEq

instance : Inhabited LobJson := ⟨⟨none, none⟩⟩

/-- Environment configuration of the mail-label handler. The inbound
credentials are byte lists, matching the decoded Basic credential. -/
structure Config where
  sheetsWebhookUrl : String
  mailUser : List Nat
  mailPass : List Nat
  lobApiKey : String
deriving DecidableEq

/-- An inbound HTTP request to the mail-label handler. -/
structure Request where
  method : String
  authHeader : Option String
  body : Body
deriving DecidableEq

/-- Outcomes of the external calls made while handling one request.
`composeCrash = some e` models `buildInstructionsPlusLabelPdf` throwing
(e.g. unparsable label bytes), which the outer `catch` turns into a 500. -/
structure World where
  nowMs : Nat
  nowIso : String
  labelResp : FetchRes LabelJson
  composeCrash : Option String
  lobResp : FetchRes LobJson
  sheetsTransport : Transport
deriving DecidableEq

/-- `!labelResp.ok || !labelJson?.ok || !labelJson?.labelData`, negated. -/
def labelOkCheck (lr : FetchRes LabelJson) : Bool :=
  lr.ok && (match lr.json with
            | some j => j.ok && truthyS j.labelData
            | none => false)

/-- `!lobResp.ok || !lobJson?.id`, negated. -/
def lobOkCheck (lr : FetchRes LobJson) : Bool :=
  lr.ok && (match lr.json with
            | some lj => truthyS lj.id
            | none => false)

/-- The label JSON once `labelOkCheck` guarantees it parsed. -/
def labelJsonOf (lr : FetchRes LabelJson) : LabelJson := lr.json.getD default

/-- The Lob JSON once `lobOkCheck` guarantees it parsed. -/
def lobJsonOf (lr : FetchRes LobJson) : LobJson := lr.json.getD default

/-- `labelJson.trackingNumber || labelJson.tracking_number || ""`. -/
def trackingOf (j : LabelJson) : String :=
  jsOrS j.trackingNumber (jsOrS j.tracking_number "")

/-- The `missing` list built by the sequential pushes of the handler. -/
def missingFields (b : Body) : List String :=
  (if (requireField b.name).isNone then ["name"] else []) ++
  (if (requireField b.address1).isNone then ["address1"] else []) ++
  (if (requireField b.city).isNone then ["city"] else []) ++
  (if (requireField b.state).isNone then ["state"] else []) ++
  (if (requireField b.zip).isNone then ["zip"] else []) ++
  (if (requireField b.phone).isNone then ["phone"] else []) ++
  (if (requireField b.deviceType).isNone then ["deviceType"] else [])

/-- The `failPayload` posted when required fields are missing
(`api/mail-label.js` validation branch). -/
def missingPayload (b : Body) (w : World) (missing : List String) : AuditPayload :=
  [("request_id", JVal.str ("mail_" ++ toString w.nowMs)),
   ("lob_letter_id", JVal.str ""),
   ("source", JVal.str "Lifelinephysical-mail"),
   ("created_at_iso", JVal.str w.nowIso),
   ("customer_name", JVal.str (rfD b.name)),
   ("customer_email", JVal.str (orEmpty b.email)),
   ("customer_phone", JVal.str (rfD b.phone)),
   ("from_address1", JVal.str (rfD b.address1)),
   ("from_address2", JVal.str (rfD b.address2)),
   ("from_city", JVal.str (rfD b.city)),
   ("from_state", JVal.str (rfD b.state)),
   ("from_zip", JVal.str (rfD b.zip)),
   ("device_type", JVal.str (rfD b.deviceType)),
   ("device_serial", JVal.str (orEmpty b.deviceSerial)),
   ("return_reason", JVal.str (orEmpty b.returnReason)),
   ("weight_oz", optNumJ (normalizeWeightOz b.weightOz b.weightLbs)),
   ("service_type", JVal.str "usps_ground_advantage"),
   ("tracking_number", JVal.str ""),
   ("label_id", JVal.str ""),
   ("postage_total_usd", JVal.null),
   ("status", JVal.str "Exception"),
   ("status_last_checked", JVal.str w.nowIso),
   ("delivered_at", JVal.null),
   ("latest_event", JVal.str ("Missing required fields: " ++ String.intercalate ", " missing))]

/-- The `failPayload` posted when `/api/create-label` fails. -/
def labelFailPayload (b : Body) (w : World) : AuditPayload :=
  [("request_id", JVal.str ("mail_" ++ toString w.nowMs)),
   ("lob_letter_id", JVal.str ""),
   ("source", JVal.str "Lifelinephysical-mail"),
   ("created_at_iso", JVal.str w.nowIso),
   ("customer_name", JVal.str (rfD b.name)),
   ("customer_email", JVal.str (orEmpty b.email)),
   ("customer_phone", JVal.str (rfD b.phone)),
   ("from_address1", JVal.str (rfD b.address1)),
   ("from_address2", JVal.str (rfD b.address2)),
   ("from_city", JVal.str (rfD b.city)),
   ("from_state", JVal.str (rfD b.state)),
   ("from_zip", JVal.str (rfD b.zip)),
   ("device_type", JVal.str (rfD b.deviceType)),
   ("device_serial", JVal.str (orEmpty b.deviceSerial)),
   ("return_reason", JVal.str (orEmpty b.returnReason)),
   ("weight_oz", optNumJ (normalizeWeightOz b.weightOz b.weightLbs)),
   ("service_type", JVal.str "usps_ground_advantage"),
   ("tracking_number", JVal.str ""),
   ("label_id", JVal.str ""),
   ("postage_total_usd", JVal.null),
   ("status", JVal.str "Exception"),
   ("status_last_checked", JVal.str w.nowIso),
   ("delivered_at", JVal.null),
   ("latest_event", JVal.str ("Label creation failed (Endicia). HTTP " ++ toString w.labelResp.status))]

/-- The `failPayload` posted when the Lob letter creation fails; it carries
the tracking number and label metadata already obtained. -/
def lobFailPayload (b : Body) (w : World) (j : LabelJson) (tracking : String) : AuditPayload :=
  [("request_id", JVal.str ("mail_" ++ toString w.nowMs)),
   ("lob_letter_id", JVal.str ""),
   ("source", JVal.str "physical-mail"),
   ("created_at_iso", JVal.str w.nowIso),
   ("customer_name", JVal.str (rfD b.name)),
   ("customer_email", JVal.str (orEmpty b.email)),
   ("customer_phone", JVal.str (rfD b.phone)),
   ("from_address1", JVal.str (rfD b.address1)),
   ("from_address2", JVal.str (rfD b.address2)),
   ("from_city", JVal.str (rfD b.city)),
   ("from_state", JVal.str (rfD b.state)),
   ("from_zip", JVal.str (rfD b.zip)),
   ("device_type", JVal.str (rfD b.deviceType)),
   ("device_serial", JVal.str (orEmpty b.deviceSerial)),
   ("return_reason", JVal.str (orEmpty b.returnReason)),
   ("weight_oz", optNumJ (normalizeWeightOz b.weightOz b.weightLbs)),
   ("service_type", JVal.str (jsOrS j.service_type "usps_ground_advantage")),
   ("tracking_number", JVal.str tracking),
   ("label_id", JVal.str (jsOrS j.label_id "")),
   ("postage_total_usd", optNumJ j.shipment_cost_total),
   ("status", JVal.str "Exception"),
   ("status_last_checked", JVal.str w.nowIso),
   ("delivered_at", JVal.null),
   ("latest_event", JVal.str ("Lob letter creation failed. HTTP " ++ toString w.lobResp.status))]

/-- The `sheetsPayload` posted on full success. -/
def successPayload (b : Body) (w : World) (j : LabelJson) (tracking lobId : String) : AuditPayload :=
  [("request_id", JVal.str lobId),
   ("lob_letter_id", JVal.str lobId),
   ("source", JVal.str "physical-mail"),
   ("created_at_iso", JVal.str w.nowIso),
   ("customer_name", JVal.str (rfD b.name)),
   ("customer_email", JVal.str (orEmpty b.email)),
   ("customer_phone", JVal.str (rfD b.phone)),
   ("from_address1", JVal.str (rfD b.address1)),
   ("from_address2", JVal.str (rfD b.address2)),
   ("from_city", JVal.str (rfD b.city)),
   ("from_state", JVal.str (rfD b.state)),
   ("from_zip", JVal.str (rfD b.zip)),
   ("device_type", JVal.str (rfD b.deviceType)),
   ("device_serial", JVal.str (orEmpty b.deviceSerial)),
   ("return_reason", JVal.str (orEmpty b.returnReason)),
   ("weight_oz", optNumJ (normalizeWeightOz b.weightOz b.weightLbs)),
   ("service_type", JVal.str (jsOrS j.service_type "usps_ground_advantage")),
   ("tracking_number", JVal.str tracking),
   ("label_id", JVal.str (jsOrS j.label_id "")),
   ("postage_total_usd", optNumJ j.shipment_cost_total),
   ("status", JVal.str "Created"),
   ("status_last_checked", JVal.str w.nowIso),
   ("delivered_at", JVal.null),
   ("latest_event", JVal.str (if tracking != "" then
      "Return label created; physical packet mailed."
      else "Return label created (no tracking number returned); physical packet mailed."))]

/-- The `crashPayload` posted by the outer `catch` on an unhandled error. -/
def crashPayload (w : World) (e : String) : AuditPayload :=
  [("request_id", JVal.str ("mail_" ++ toString w.nowMs)),
   ("lob_letter_id", JVal.str ""),
   ("source", JVal.str "Lifelinephysical-mail"),
   ("created_at_iso", JVal.str w.nowIso),
   ("customer_name", JVal.str ""),
   ("customer_email", JVal.str ""),
   ("customer_phone", JVal.str ""),
   ("from_address1", JVal.str ""),
   ("from_address2", JVal.str ""),
   ("from_city", JVal.str ""),
   ("from_state", JVal.str ""),
   ("from_zip", JVal.str ""),
   ("device_type", JVal.str ""),
   ("device_serial", JVal.str ""),
   ("return_reason", JVal.str ""),
   ("weight_oz", JVal.null),
   ("service_type", JVal.str "usps_ground_advantage"),
   ("tracking_number", JVal.str ""),
   ("label_id", JVal.str ""),
   ("postage_total_usd", JVal.null),
   ("status", JVal.str "Exception"),
   ("status_last_checked", JVal.str w.nowIso),
   ("delivered_at", JVal.null),
   ("latest_event", JVal.str ("Unhandled error: " ++ e))]

/-- The shared key schema of every mail-label audit payload. -/
def auditSchema : List String :=
  ["request_id", "lob_letter_id", "source", "created_at_iso",
   "customer_name", "customer_email", "customer_phone",
   "from_address1", "from_address2", "from_city", "from_state", "from_zip",
   "device_type", "device_serial", "return_reason", "weight_oz",
   "service_type", "tracking_number", "label_id", "postage_total_usd",
   "status", "status_last_checked", "delivered_at", "latest_event"]

/-- Responses the mail-label handler can send (`sendJson` / `unauthorized`
exits, with the JSON fields the claims are about). `details` passthrough of
provider JSON is not modelled. -/
inductive Resp where
  | methodNotAllowed
  | missingEnv (msg : String)
  | unauthorizedResp
  | badRequest (error : String) (httpStatus : Option Nat)
  | success (uspsTrackingNumber : Option String) (lobLetterId : String)
      (lobStatus : Option String) (sheetsLogged : SheetsResult)
  | serverError (error : String)
deriving DecidableEq

/-- HTTP status code of each exit. -/
def Resp.statusCode : Resp → Nat
  | Resp.methodNotAllowed => 405
  | Resp.missingEnv _ => 500
  | Resp.unauthorizedResp => 401
  | Resp.badRequest _ _ => 400
  | Resp.success _ _ _ _ => 200
  | Resp.serverError _ => 500

/-- The exit taken by one run of the handler. -/
inductive ExitPath where
  | gateMethodNA
  | gateEnv
  | gateAuth
  | gateLobKey
  | exMissing (missing : List String)
  | exLabelFail
  | exCrash (e : String)
  | exLobFail
  | exSuccess
deriving DecidableEq

/-- The branch structure of `handler` in `api/mail-label.js`, in source
order: method gate, MAIL_USER/MAIL_PASS presence, Basic-auth comparison,
LOB_API_KEY presence, required-field validation, label call check,
PDF composition (whose throw lands in the outer catch), Lob call check. -/
def routeOf (cfg : Config) (req : Request) (w : World) : ExitPath :=
  if req.method ≠ "POST" then ExitPath.gateMethodNA
  else if cfg.mailUser = [] ∨ cfg.mailPass = [] then ExitPath.gateEnv
  else if parseBasicAuth req.authHeader ≠ some (cfg.mailUser, cfg.mailPass) then ExitPath.gateAuth
  else if cfg.lobApiKey = "" then ExitPath.gateLobKey
  else if missingFields req.body ≠ [] then ExitPath.exMissing (missingFields req.body)
  else if labelOkCheck w.labelResp = false then ExitPath.exLabelFail
  else
    match w.composeCrash with
    | some e => ExitPath.exCrash e
    | none => if lobOkCheck w.lobResp = false then ExitPath.exLobFail else ExitPath.exSuccess

/-- Response and effect trace of each exit, as produced by the source: each
post-gate exit posts exactly one payload to the Sheets sink before
returning, and the trace records the label/Lob fetches that were made. -/
def respOf (cfg : Config) (req : Request) (w : World) : ExitPath → Resp × List Effect
  | ExitPath.gateMethodNA => (Resp.methodNotAllowed, [])
  | ExitPath.gateEnv => (Resp.missingEnv "Missing MAIL_USER/MAIL_PASS env vars", [])
  | ExitPath.gateAuth => (Resp.unauthorizedResp, [])
  | ExitPath.gateLobKey => (Resp.missingEnv "Missing LOB_API_KEY env var", [])
  | ExitPath.exMissing missing =>
      (Resp.badRequest ("Missing required fields: " ++ String.intercalate ", " missing) none,
       [auditEffect cfg.sheetsWebhookUrl (missingPayload req.body w missing)])
  | ExitPath.exLabelFail =>
      (Resp.badRequest "Label creation failed" (some w.labelResp.status),
       [Effect.labelFetch, auditEffect cfg.sheetsWebhookUrl (labelFailPayload req.body w)])
  | ExitPath.exCrash e =>
      (Resp.serverError e,
       [Effect.labelFetch, auditEffect cfg.sheetsWebhookUrl (crashPayload w e)])
  | ExitPath.exLobFail =>
      (Resp.badRequest "Lob letter creation failed" (some w.lobResp.status),
       [Effect.labelFetch, Effect.lobFetch,
        auditEffect cfg.sheetsWebhookUrl
          (lobFailPayload req.body w (labelJsonOf w.labelResp) (trackingOf (labelJsonOf w.labelResp)))])
  | ExitPath.exSuccess =>
      let j := labelJsonOf w.labelResp
      let lj := lobJsonOf w.lobResp
      let t := trackingOf j
      let p := successPayload req.body w j t (orEmpty lj.id)
      (Resp.success (if t = "" then none else some t) (orEmpty lj.id) (jsOrNull lj.status)
         (postToSheets cfg.sheetsWebhookUrl w.sheetsTransport p).1,
       [Effect.labelFetch, Effect.lobFetch, auditEffect cfg.sheetsWebhookUrl p])

/-- The mail-label handler: route the request, then produce the response
and its attempted effects. -/
def handler (cfg : Config) (req : Request) (w : World) : Resp × List Effect :=
  respOf cfg req w (routeOf cfg req w)

end MailLabel

namespace CreateLabel

/-- `normalizeWeightOz` from `api/create-label.js`: `weightOz ∈ {16, 32}`
wins, else `weightLbs ∈ {1, 2}` times 16, else the fixed default 32. -/
def acceptedOz (o : Option ℚ) : Bool :=
  match o with
  | some q => decide (q = 16 ∨ q = 32)
  | none => false

/-- Acceptance of the pounds branch: `lbs === 1 || lbs === 2`. -/
def acceptedLbs (o : Option ℚ) : Bool :=
  match o with
  | some q => decide (q = 1 ∨ q = 2)
  | none => false

/-- The create-label weight resolution with its fixed 32 oz fallback. -/
def normalizeWeightOz (oz lbs : Option ℚ) : ℚ :=
  if acceptedOz oz then oz.getD 32
  else if acceptedLbs lbs then lbs.getD 0 * 16
  else 32

/-- Outcome of the token-endpoint fetch in `getAccessToken`: the request
may throw (endpoint unreachable), or return a status together with the
parsed body (`none` = unparsable JSON, the inner option = `access_token`). -/
inductive TokenFetch where
  | unreachable (e : String)
  | response (status : Nat) (data : Option (Option String))
deriving DecidableEq

/-- `resp.ok`: the HTTP status is in the 2xx range. -/
def fetchOk (status : Nat) : Bool := decide (200 ≤ status) && decide (status < 300)

/-- Result of the token broker. -/
inductive TokenResult where
  | token (t : String)
  | authError (msg : String)
deriving DecidableEq

/-- `getAccessToken` from `api/create-label.js`: an unreachable endpoint
propagates the fetch error; otherwise the call throws unless `resp.ok`
holds and the body carries a truthy `access_token`, which it returns. -/
def getAccessToken : TokenFetch → TokenResult
  | TokenFetch.unreachable e => TokenResult.authError e
  | TokenFetch.response st data =>
      match data with
      | some (some tok) =>
          if fetchOk st && (tok != "") then TokenResult.token tok
          else TokenResult.authError ("Token refresh failed. HTTP " ++ toString st)
      | _ => TokenResult.authError ("Token refresh failed. HTTP " ++ toString st)

/-- The failure condition stated by the specification: the endpoint is
unreachable, the status is not 2xx, or the response lacks an access token
(no parsable body, no `access_token` field, or an empty one). -/
def specTokenFailure : TokenFetch → Bool
  | TokenFetch.unreachable _ => true
  | TokenFetch.response st data =>
      !(fetchOk st) || (match data with
                        | some (some tok) => tok == ""
                        | _ => true)

/-- Whether the broker failed. -/
def isAuthError : TokenResult → Bool
  | TokenResult.authError _ => true
  | TokenResult.token _ => false

/-- `customerFromAddress(body)`. -/
structure SeraAddress where
  name : String
  company_name : String
  address_line1 : String
  address_line2 : String
  city : String
  state_province : String
  postal_code : String
  country_code : String
  phone : String
  email : String
deriving DecidableEq

/-- Build the sender address from the request body, trimming each field. -/
def customerFromAddress (b : Body) : SeraAddress :=
  { name := trimStr (orEmpty b.name)
    company_name := ""
    address_line1 := trimStr (orEmpty b.address1)
    address_line2 := trimStr (orEmpty b.address2)
    city := trimStr (orEmpty b.city)
    state_province := trimStr (orEmpty b.state)
    postal_code := trimStr (orEmpty b.zip)
    country_code := "US"
    phone := trimStr (orEmpty b.phone)
    email := trimStr (orEmpty b.email) }

/-- Parsed JSON of the carrier label-issuance response. -/
structure CarrierJson where
  tracking_number : Option String
  label0_data : Option String
  label0_href : Option String
  label_data : Option String
  service_type : Option String
  label_id : Option String
  shipment_cost_total : Option ℚ
deriving DecidableEq

/-- Environment configuration of the create-label handler. -/
structure Config where
  clientId : Option String
  clientSecret : Option String
  refreshToken : Option String
  sheetsWebhookUrl : String
deriving DecidableEq

/-- Outcomes of the external calls of one create-label run. `carrierCrash`
models the labels fetch itself throwing; `hrefResult` is the base64 of the
secondary label-document fetch, `none` when that fetch throws. -/
structure World where
  tokenFetch : TokenFetch
  carrierCrash : Option String
  carrierResp : FetchRes CarrierJson
  hrefResult : Option String
  sheetsTransport : Transport
  uuid : String
  nowIso : String
deriving DecidableEq

/-- Responses of the create-label handler. -/
inductive Resp where
  | methodNotAllowed
  | missingEnv
  | badRequest (error : String)
  | fromIncomplete
  | labelFailed (status : Nat)
  | success (trackingNumber : String) (labelData : String) (sheetsLogged : SheetsResult)
  | noLabelData (sheetsLogged : SheetsResult)
  | serverError (e : String)
deriving DecidableEq

/-- HTTP status code of each create-label exit (`labelFailed` passes the
carrier's status through). -/
def Resp.statusCode : Resp → Nat
  | Resp.methodNotAllowed => 405
  | Resp.missingEnv => 500
  | Resp.badRequest _ => 400
  | Resp.fromIncomplete => 400
  | Resp.labelFailed s => s
  | Resp.success _ _ _ => 200
  | Resp.noLabelData _ => 500
  | Resp.serverError _ => 500

/-- The success-path `sheetsPayload` of `api/create-label.js` (only posted
when `skipLogging` is not set). -/
def sheetsPayload (b : Body) (w : World) (j : CarrierJson) (weightOz : ℚ)
    (tracking : String) : AuditPayload :=
  [("request_id", JVal.str w.uuid),
   ("source", JVal.str "Connect Print"),
   ("created_at_iso", JVal.str w.nowIso),
   ("customer_name", JVal.str (customerFromAddress b).name),
   ("customer_email", JVal.str (customerFromAddress b).email),
   ("customer_phone", JVal.str (customerFromAddress b).phone),
   ("from_address1", JVal.str (customerFromAddress b).address_line1),
   ("from_address2", JVal.str (customerFromAddress b).address_line2),
   ("from_city", JVal.str (customerFromAddress b).city),
   ("from_state", JVal.str (customerFromAddress b).state_province),
   ("from_zip", JVal.str (customerFromAddress b).postal_code),
   ("device_type", JVal.str (orEmpty b.deviceType)),
   ("device_serial", JVal.str (orEmpty b.deviceSerial)),
   ("return_reason", JVal.str (orEmpty b.returnReason)),
   ("weight_oz", JVal.num weightOz),
   ("service_type", JVal.str (jsOrS j.service_type "usps_ground_advantage")),
   ("tracking_number", JVal.str tracking),
   ("label_id", JVal.str (jsOrS j.label_id "")),
   ("postage_total_usd", optNumJ j.shipment_cost_total),
   ("status", JVal.str "Created")]

/-- The create-label handler (`module.exports` of `api/create-label.js`):
env gate, required-field filter, sender-address check, token refresh,
carrier label call, optional Sheets logging guarded by `skipLogging`, and
the inline-bytes / document-URL / missing-data outcomes. -/
def handler (cfg : Config) (method : String) (b : Body) (w : World) :
    Resp × List Effect :=
  if method ≠ "POST" then (Resp.methodNotAllowed, [])
  else if !(truthyS cfg.clientId && truthyS cfg.clientSecret && truthyS cfg.refreshToken) then
    (Resp.missingEnv, [])
  else
    let missing := requiredFields.filter (fun k => (requireField (fieldOf b k)).isNone)
    if missing ≠ [] then
      (Resp.badRequest ("Missing required fields: " ++ String.intercalate ", " missing), [])
    else
      let fa := customerFromAddress b
      if fa.name = "" ∨ fa.address_line1 = "" ∨ fa.city = "" ∨ fa.state_province = "" ∨
          fa.postal_code = "" then
        (Resp.fromIncomplete, [])
      else
        let weightOz := normalizeWeightOz b.weightOz b.weightLbs
        match getAccessToken w.tokenFetch with
        | TokenResult.authError e => (Resp.serverError e, [Effect.tokenFetch])
        | TokenResult.token _ =>
            match w.carrierCrash with
            | some e => (Resp.serverError e, [Effect.tokenFetch, Effect.carrierFetch])
            | none =>
                if w.carrierResp.ok = false then
                  (Resp.labelFailed w.carrierResp.status, [Effect.tokenFetch, Effect.carrierFetch])
                else
                  match w.carrierResp.json with
                  | none =>
                      (Resp.serverError "TypeError: cannot read tracking_number of null",
                       [Effect.tokenFetch, Effect.carrierFetch])
                  | some j =>
                      let tracking := jsOrS j.tracking_number ""
                      let maybeBase64 := jsOrO j.label0_data j.label_data
                      let sheets :=
                        if b.skipLogging then (SheetsResult.skipped, ([] : List Effect))
                        else postToSheets cfg.sheetsWebhookUrl w.sheetsTransport
                               (sheetsPayload b w j weightOz tracking)
                      match maybeBase64 with
                      | some b64 =>
                          (Resp.success tracking b64 sheets.1,
                           [Effect.tokenFetch, Effect.carrierFetch] ++ sheets.2)
                      | none =>
                          if truthyS j.label0_href then
                            match w.hrefResult with
                            | some b64 =>
                                (Resp.success tracking b64 sheets.1,
                                 [Effect.tokenFetch, Effect.carrierFetch] ++ sheets.2 ++ [Effect.hrefFetch])
                            | none =>
                                (Resp.serverError "fetch failed",
                                 [Effect.tokenFetch, Effect.carrierFetch] ++ sheets.2 ++ [Effect.hrefFetch])
                          else
                            (Resp.noLabelData sheets.1,
                             [Effect.tokenFetch, Effect.carrierFetch] ++ sheets.2)

end CreateLabel

/-- Interpret a create-label response as the `FetchRes` seen by the
mail-label handler's `fetch` of `/api/create-label`: a 200 body carries
`ok:true`, `trackingNumber` and `labelData`; every failure body parses with
a falsy `ok` and no `labelData`. -/
def clToLabelResp : CreateLabel.Resp → FetchRes MailLabel.LabelJson
  | CreateLabel.Resp.success tn b64 _ =>
      { ok := true, status := 200,
        json := some { ok := true, labelData := some b64, trackingNumber := some tn,
                       tracking_number := none, service_type := none, label_id := none,
                       shipment_cost_total := none } }
  | r =>
      { ok := false, status := r.statusCode,
        json := some { ok := false, labelData := none, trackingNumber := none,
                       tracking_number := none, service_type := none, label_id := none,
                       shipment_cost_total := none } }

/-- One inbound request served by the composed system: the mail-label
handler's label stage is the create-label handler invoked on the same body
(the source forwards `JSON.stringify(body)` verbatim, without adding
`skipLogging`). The create-label effects occur exactly when the mail
handler performed the label fetch. -/
def composedRun (mcfg : MailLabel.Config) (ccfg : CreateLabel.Config)
    (req : MailLabel.Request) (cw : CreateLabel.World) (w : MailLabel.World) :
    MailLabel.Resp × List Effect :=
  let c := CreateLabel.handler ccfg "POST" req.body cw
  let m := MailLabel.handler mcfg req { w with labelResp := clToLabelResp c.1 }
  (m.1, if Effect.labelFetch ∈ m.2 then c.2 ++ m.2 else m.2)

/-- A complete request body (the end-to-end example of the specification). -/
def sampleBody : Body :=
  { name := some "Jane Doe", address1 := some "1 Main St", address2 := none,
    city := some "Springfield", state := some "IL", zip := some "62704",
    phone := some "2175551234", deviceType := some "base-unit",
    deviceSerial := none, returnReason := none, email := none,
    weightOz := none, weightLbs := none, skipLogging := false }

/-- A mail-label configuration with webhook, credentials `u`/`p` (bytes 117
and 112, matching the Basic header `dTpw`) and a Lob key. -/
def mcfg0 : MailLabel.Config :=
  { sheetsWebhookUrl := "https://sheets.example/hook", mailUser := [117],
    mailPass := [112], lobApiKey := "key_123" }

/-- A label response that never parses (unused on paths that fail earlier). -/
def dummyLabelResp : FetchRes MailLabel.LabelJson :=
  { ok := false, status := 0, json := none }

/-- A parsed create-label success body with a tracking number. -/
def labelJsonGood : MailLabel.LabelJson :=
  { ok := true, labelData := some "JVBERi0xLjQ=",
    trackingNumber := some "9400100000000000000001", tracking_number := none,
    service_type := some "usps_ground_advantage", label_id := some "lbl_1",
    shipment_cost_total := none }

/-- A parsed create-label success body without any tracking number. -/
def labelJsonNoTrack : MailLabel.LabelJson :=
  { ok := true, labelData := some "JVBERi0xLjQ=",
    trackingNumber := none, tracking_number := none,
    service_type := none, label_id := none, shipment_cost_total := none }

/-- A world whose Lob call succeeds (label outcome filled in per scenario). -/
def w0 : MailLabel.World :=
  { nowMs := 0, nowIso := "2026-01-01T00:00:00.000Z",
    labelResp := dummyLabelResp, composeCrash := none,
    lobResp := { ok := true, status := 200,
                 json := some { id := some "ltr_1", status := some "processed" } },
    sheetsTransport := Transport.ok true 202 }

/-- A world where the label call succeeded with a tracking number but the
Lob call failed with HTTP 400. -/
def wLobFail : MailLabel.World :=
  { nowMs := 0, nowIso := "2026-01-01T00:00:00.000Z",
    labelResp := { ok := true, status := 200, json := some labelJsonGood },
    composeCrash := none,
    lobResp := { ok := false, status := 400, json := none },
    sheetsTransport := Transport.ok true 202 }

/-- A world where the label call succeeded without a tracking number and the
Lob call succeeded. -/
def wNoTrack : MailLabel.World :=
  { nowMs := 0, nowIso := "2026-01-01T00:00:00.000Z",
    labelResp := { ok := true, status := 200, json := some labelJsonNoTrack },
    composeCrash := none,
    lobResp := { ok := true, status := 200,
                 json := some { id := some "ltr_1", status := some "processed" } },
    sheetsTransport := Transport.ok true 202 }

/-- A request with valid credentials but a missing phone field. -/
def reqMissingPhone : MailLabel.Request :=
  { method := "POST", authHeader := some "Basic dTpw",
    body := { sampleBody with phone := none } }

/-- A complete request with valid credentials. -/
def reqFull : MailLabel.Request :=
  { method := "POST", authHeader := some "Basic dTpw", body := sampleBody }

/-- A complete request whose Basic credential decodes to `u:q`, which does
not match the configured password. -/
def reqBadAuth : MailLabel.Request :=
  { method := "POST", authHeader := some "Basic dTpx", body := sampleBody }

/-- A create-label configuration with all credentials and a webhook. -/
def ccfg0 : CreateLabel.Config :=
  { clientId := some "cid", clientSecret := some "sec", refreshToken := some "rt",
    sheetsWebhookUrl := "https://sheets.example/hook" }

/-- A successful carrier label-issuance body with inline label bytes. -/
def carrierJson0 : CreateLabel.CarrierJson :=
  { tracking_number := some "9400100000000000000001",
    label0_data := some "JVBERi0xLjQ=", label0_href := none,
    label_data := none, service_type := some "usps_ground_advantage",
    label_id := some "lbl_1", shipment_cost_total := none }

/-- A create-label world where the token refresh and the carrier call both
succeed. -/
def cw0 : CreateLabel.World :=
  { tokenFetch := CreateLabel.TokenFetch.response 200 (some (some "tok")),
    carrierCrash := none,
    carrierResp := { ok := true, status := 200, json := some carrierJson0 },
    hrefResult := none, sheetsTransport := Transport.ok true 202,
    uuid := "uuid-1", nowIso := "2026-01-01T00:00:00.000Z" }

/-- Effect trace of one audit-sink invocation. -/
theorem postToSheets_effects (url : String) (t : Transport) (p : AuditPayload) :
    (postToSheets url t p).2 = [auditEffect url p] := by
  by_cases h : url = "" <;> cases t <;> simp [postToSheets, auditEffect, h]

/-- An audit attempt contributes its payload to `auditPayloads`. -/
theorem auditPayloads_effect (url : String) (p : AuditPayload) (r : List Effect) :
    auditPayloads (auditEffect url p :: r) = p :: auditPayloads r := by
  by_cases h : url = "" <;> simp [auditEffect, h, auditPayloads]

/-- A label fetch contributes nothing to `auditPayloads`. -/
theorem auditPayloads_label (r : List Effect) :
    auditPayloads (Effect.labelFetch :: r) = auditPayloads r := rfl

/-- A Lob fetch contributes nothing to `auditPayloads`. -/
theorem auditPayloads_lob (r : List Effect) :
    auditPayloads (Effect.lobFetch :: r) = auditPayloads r := rfl

/-- An audit attempt is never the label fetch. -/
theorem auditEffect_ne_label (url : String) (p : AuditPayload) :
    auditEffect url p ≠ Effect.labelFetch := by
  by_cases h : url = "" <;> simp [auditEffect, h]

/-- An audit attempt is never the Lob fetch. -/
theorem auditEffect_ne_lob (url : String) (p : AuditPayload) :
    auditEffect url p ≠ Effect.lobFetch := by
  by_cases h : url = "" <;> simp [auditEffect, h]

/-- The validation-failure payload carries the full audit schema. -/
theorem missingPayload_keys (b : Body) (w : MailLabel.World) (m : List String) :
    payloadKeys (MailLabel.missingPayload b w m) = MailLabel.auditSchema := rfl

/-- The label-failure payload carries the full audit schema. -/
theorem labelFailPayload_keys (b : Body) (w : MailLabel.World) :
    payloadKeys (MailLabel.labelFailPayload b w) = MailLabel.auditSchema := rfl

/-- The Lob-failure payload carries the full audit schema. -/
theorem lobFailPayload_keys (b : Body) (w : MailLabel.World) (j : MailLabel.LabelJson)
    (t : String) :
    payloadKeys (MailLabel.lobFailPayload b w j t) = MailLabel.auditSchema := rfl

/-- The success payload carries the full audit schema. -/
theorem successPayload_keys (b : Body) (w : MailLabel.World) (j : MailLabel.LabelJson)
    (t i : String) :
    payloadKeys (MailLabel.successPayload b w j t i) = MailLabel.auditSchema := rfl

/-- The crash payload carries the full audit schema. -/
theorem crashPayload_keys (w : MailLabel.World) (e : String) :
    payloadKeys (MailLabel.crashPayload w e) = MailLabel.auditSchema := rfl

/-- The Lob-failure payload records the tracking number it was given. -/
theorem lobFailPayload_tracking (b : Body) (w : MailLabel.World) (j : MailLabel.LabelJson)
    (t : String) :
    lookupKey (MailLabel.lobFailPayload b w j t) "tracking_number" = some (JVal.str t) := rfl

/-- The Lob-failure payload names the Lob HTTP status in its last event. -/
theorem lobFailPayload_latest (b : Body) (w : MailLabel.World) (j : MailLabel.LabelJson)
    (t : String) :
    lookupKey (MailLabel.lobFailPayload b w j t) "latest_event" =
      some (JVal.str ("Lob letter creation failed. HTTP " ++ toString w.lobResp.status)) := rfl

/-- The success payload notes the absence of a tracking number in its last
event when the tracking string is empty. -/
theorem successPayload_latest_noTrack (b : Body) (w : MailLabel.World)
    (j : MailLabel.LabelJson) (i : String) :
    lookupKey (MailLabel.successPayload b w j "" i) "latest_event" =
      some (JVal.str "Return label created (no tracking number returned); physical packet mailed.") := rfl

/-- The success payload always records status Created. -/
theorem successPayload_status (b : Body) (w : MailLabel.World) (j : MailLabel.LabelJson)
    (t i : String) :
    lookupKey (MailLabel.successPayload b w j t i) "status" = some (JVal.str "Created") := rfl

/-- The sequential pushes of the handler produce exactly the required-field
names that are missing, in declaration order. -/
theorem missingFields_filter (b : Body) :
    MailLabel.missingFields b =
      requiredFields.filter (fun k => (requireField (fieldOf b k)).isNone) := by
  simp only [MailLabel.missingFields, requiredFields, List.filter_cons, List.filter_nil, fieldOf]
  cases h1 : (requireField b.name).isNone <;>
    cases h2 : (requireField b.address1).isNone <;>
    cases h3 : (requireField b.city).isNone <;>
    cases h4 : (requireField b.state).isNone <;>
    cases h5 : (requireField b.zip).isNone <;>
    cases h6 : (requireField b.phone).isNone <;>
    cases h7 : (requireField b.deviceType).isNone <;>
    simp [h1, h2, h3, h4, h5, h6, h7]

/-- When the gates pass, the route is determined by validation, the label
check, composition, and the Lob check, in that order. -/
theorem routeOf_postgate (cfg : MailLabel.Config) (req : MailLabel.Request)
    (w : MailLabel.World)
    (hm : req.method = "POST") (hu : cfg.mailUser ≠ []) (hp : cfg.mailPass ≠ [])
    (ha : MailLabel.parseBasicAuth req.authHeader = some (cfg.mailUser, cfg.mailPass))
    (hk : cfg.lobApiKey ≠ "") :
    MailLabel.routeOf cfg req w =
      (if MailLabel.missingFields req.body ≠ [] then
        MailLabel.ExitPath.exMissing (MailLabel.missingFields req.body)
      else if MailLabel.labelOkCheck w.labelResp = false then MailLabel.ExitPath.exLabelFail
      else
        match w.composeCrash with
        | some e => MailLabel.ExitPath.exCrash e
        | none =>
            if MailLabel.lobOkCheck w.lobResp = false then MailLabel.ExitPath.exLobFail
            else MailLabel.ExitPath.exSuccess) := by
  unfold MailLabel.routeOf
  simp [hm, hu, hp, ha, hk]

/-- An empty tracking string results when both tracking fields of the label
response are absent or empty. -/
theorem trackingOf_empty (j : MailLabel.LabelJson)
    (h1 : truthyS j.trackingNumber = false) (h2 : truthyS j.tracking_number = false) :
    MailLabel.trackingOf j = "" := by
  simp [MailLabel.trackingOf, jsOrS, h1, h2]

/-- C1: weight resolution. In both variants the ounce branch is tried first
and the first accepted value wins: an accepted explicit `weightOz` is
returned as is (`weightOz = 20` gives 20 in the mail-label variant),
otherwise an accepted `weightLbs` is multiplied by 16 (`weightLbs = 2`
gives 32 in both variants), otherwise the documented fallback applies:
`null` in `api/mail-label.js`, the fixed 32 in `api/create-label.js` (where
only 16 and 32 ounces and 1 and 2 pounds are accepted). -/
theorem weight_resolution (oz lbs : Option ℚ) :
    (∀ q : ℚ, oz = some q → 0 < q → MailLabel.normalizeWeightOz oz lbs = some q) ∧
    (posNum oz = false → ∀ q : ℚ, lbs = some q → 0 < q →
      MailLabel.normalizeWeightOz oz lbs = some (q * 16)) ∧
    (posNum oz = false → posNum lbs = false → MailLabel.normalizeWeightOz oz lbs = none) ∧
    (∀ q : ℚ, oz = some q → (q = 16 ∨ q = 32) → CreateLabel.normalizeWeightOz oz lbs = q) ∧
    (CreateLabel.acceptedOz oz = false → ∀ q : ℚ, lbs = some q → (q = 1 ∨ q = 2) →
      CreateLabel.normalizeWeightOz oz lbs = q * 16) ∧
    (CreateLabel.acceptedOz oz = false → CreateLabel.acceptedLbs lbs = false →
      CreateLabel.normalizeWeightOz oz lbs = 32) ∧
    MailLabel.normalizeWeightOz (some 20) none = some 20 ∧
    MailLabel.normalizeWeightOz none (some 2) = some 32 ∧
    CreateLabel.normalizeWeightOz none (some 2) = 32 := by
  refine ⟨?_, ?_, ?_, ?_, ?_, ?_, ?_, ?_, ?_⟩
  · intro q hq hpos
    subst hq
    simp [MailLabel.normalizeWeightOz, posNum, hpos]
  · intro hoz q hq hpos
    subst hq
    have h2 : posNum (some q) = true := by simp [posNum, hpos]
    simp [MailLabel.normalizeWeightOz, hoz, h2]
  · intro hoz hlbs
    simp [MailLabel.normalizeWeightOz, hoz, hlbs]
  · intro q hq hacc
    subst hq
    rcases hacc with h | h <;> subst h <;>
      norm_num [CreateLabel.normalizeWeightOz, CreateLabel.acceptedOz]
  · intro hoz q hq hacc
    subst hq
    rcases hacc with h | h <;> subst h <;>
      norm_num [CreateLabel.normalizeWeightOz, CreateLabel.acceptedLbs, hoz]
  · intro hoz hlbs
    simp [CreateLabel.normalizeWeightOz, hoz, hlbs]
  · norm_num [MailLabel.normalizeWeightOz, posNum]
  · norm_num [MailLabel.normalizeWeightOz, posNum]
  · norm_num [CreateLabel.normalizeWeightOz, CreateLabel.acceptedOz, CreateLabel.acceptedLbs]

/-- Witness for C1 at the concrete input `weightOz = 20`. -/
theorem weight_resolution_witness :
    MailLabel.normalizeWeightOz (some 20) none = some 20 :=
  (weight_resolution (some 20) none).1 20 rfl (by decide)

/-- C3: for the 288 by 432 label page (4 by 6 inches at 72 units per inch)
against the 420 by 600 target box, the scale is min(420/288, 600/432) =
600/432, the drawn size is exactly 400 by 600, and the centering offsets
are x = 106 and y = 96 (exact rational arithmetic, hence within any
floating-point tolerance). -/
theorem label_geometry_4x6 :
    MailLabel.labelScale 288 432 = min (420 / 288) (600 / 432) ∧
    MailLabel.labelScale 288 432 = 600 / 432 ∧
    (MailLabel.composeLayout 288 432).drawW = 400 ∧
    (MailLabel.composeLayout 288 432).drawH = 600 ∧
    (MailLabel.composeLayout 288 432).x = 106 ∧
    (MailLabel.composeLayout 288 432).y = 96 := by
  norm_num [MailLabel.composeLayout, MailLabel.labelScale]

/-- C4: for every positive label page size, the composition uses the
uniform scale min(420/w, 600/h), draws at w·s by h·s centered via
x = (612 − drawW)/2 and y = (792 − drawH)/2, preserves the aspect ratio
(drawW·h = drawH·w), fits the 420 by 600 target box, and places the whole
drawn rectangle inside the 612 by 792 page with both offsets at least 96. -/
theorem compose_fits (w h : ℚ) (hw : 0 < w) (hh : 0 < h) :
    (MailLabel.composeLayout w h).scale = min (420 / w) (600 / h) ∧
    (MailLabel.composeLayout w h).drawW = w * (MailLabel.composeLayout w h).scale ∧
    (MailLabel.composeLayout w h).drawH = h * (MailLabel.composeLayout w h).scale ∧
    (MailLabel.composeLayout w h).x = (612 - (MailLabel.composeLayout w h).drawW) / 2 ∧
    (MailLabel.composeLayout w h).y = (792 - (MailLabel.composeLayout w h).drawH) / 2 ∧
    (MailLabel.composeLayout w h).drawW ≤ 420 ∧
    (MailLabel.composeLayout w h).drawH ≤ 600 ∧
    96 ≤ (MailLabel.composeLayout w h).x ∧
    96 ≤ (MailLabel.composeLayout w h).y ∧
    0 ≤ (MailLabel.composeLayout w h).x ∧
    0 ≤ (MailLabel.composeLayout w h).y ∧
    (MailLabel.composeLayout w h).x + (MailLabel.composeLayout w h).drawW ≤ 612 ∧
    (MailLabel.composeLayout w h).y + (MailLabel.composeLayout w h).drawH ≤ 792 ∧
    (MailLabel.composeLayout w h).drawW * h = (MailLabel.composeLayout w h).drawH * w := by
  have hs1 : MailLabel.labelScale w h ≤ 420 / w := min_le_left _ _
  have hs2 : MailLabel.labelScale w h ≤ 600 / h := min_le_right _ _
  have hdW : w * MailLabel.labelScale w h ≤ 420 := by
    have h1 := (le_div_iff₀ hw).mp hs1
    linarith [h1, mul_comm w (MailLabel.labelScale w h)]
  have hdH : h * MailLabel.labelScale w h ≤ 600 := by
    have h1 := (le_div_iff₀ hh).mp hs2
    linarith [h1, mul_comm h (MailLabel.labelScale w h)]
  refine ⟨rfl, rfl, rfl, rfl, rfl, hdW, hdH, ?_, ?_, ?_, ?_, ?_, ?_, by
    show (w * MailLabel.labelScale w h) * h = (h * MailLabel.labelScale w h) * w
    ring⟩
  · show 96 ≤ (612 - w * MailLabel.labelScale w h) / 2
    linarith
  · show 96 ≤ (792 - h * MailLabel.labelScale w h) / 2
    linarith
  · show 0 ≤ (612 - w * MailLabel.labelScale w h) / 2
    linarith
  · show 0 ≤ (792 - h * MailLabel.labelScale w h) / 2
    linarith
  · show (612 - w * MailLabel.labelScale w h) / 2 + w * MailLabel.labelScale w h ≤ 612
    linarith
  · show (792 - h * MailLabel.labelScale w h) / 2 + h * MailLabel.labelScale w h ≤ 792
    linarith

/-- Witness for C4 at the concrete 288 by 432 label page. -/
theorem compose_fits_witness :
    (MailLabel.composeLayout 288 432).drawW ≤ 420 ∧
    96 ≤ (MailLabel.composeLayout 288 432).x ∧
    (MailLabel.composeLayout 288 432).drawW * 432 =
      (MailLabel.composeLayout 288 432).drawH * 288 := by
  obtain ⟨-, -, -, -, -, h6, -, h8, -, -, -, -, -, h14⟩ :=
    compose_fits 288 432 (by decide) (by decide)
  exact ⟨h6, h8, h14⟩

/-- C9: the token broker fails exactly when the endpoint is unreachable,
the status is not 2xx, or the response lacks a (nonempty) access token; in
every other case the response has the shape of a token response and the
broker returns the access token it carries. -/
theorem token_broker_contract (t : CreateLabel.TokenFetch) :
    CreateLabel.isAuthError (CreateLabel.getAccessToken t) = CreateLabel.specTokenFailure t ∧
    (∀ (st : Nat) (tok : String), t = CreateLabel.TokenFetch.response st (some (some tok)) →
      CreateLabel.specTokenFailure t = false →
      CreateLabel.getAccessToken t = CreateLabel.TokenResult.token tok) ∧
    (CreateLabel.specTokenFailure t = false →
      ∃ (st : Nat) (tok : String), t = CreateLabel.TokenFetch.response st (some (some tok))) := by
  refine ⟨?_, ?_, ?_⟩
  · cases t with
    | unreachable e => rfl
    | response st data =>
        match data with
        | none => simp [CreateLabel.getAccessToken, CreateLabel.specTokenFailure,
            CreateLabel.isAuthError]
        | some none => simp [CreateLabel.getAccessToken, CreateLabel.specTokenFailure,
            CreateLabel.isAuthError]
        | some (some tok) =>
            by_cases ht : tok = "" <;> cases hf : CreateLabel.fetchOk st <;>
              simp [CreateLabel.getAccessToken, CreateLabel.specTokenFailure,
                CreateLabel.isAuthError, hf, ht, beq_iff_eq, bne_iff_ne]
  · intro st tok heq hfail
    subst heq
    by_cases ht : tok = "" <;> cases hf : CreateLabel.fetchOk st <;>
      simp [CreateLabel.getAccessToken, CreateLabel.specTokenFailure, hf, ht,
        beq_iff_eq, bne_iff_ne] at hfail ⊢
  · intro hfail
    cases t with
    | unreachable e => simp [CreateLabel.specTokenFailure] at hfail
    | response st data =>
        match data with
        | none => simp [CreateLabel.specTokenFailure] at hfail
        | some none => simp [CreateLabel.specTokenFailure] at hfail
        | some (some tok) => exact ⟨st, tok, rfl⟩

/-- Witness for C9 at a 2xx response carrying an access token. -/
theorem token_broker_contract_witness :
    CreateLabel.getAccessToken (CreateLabel.TokenFetch.response 200 (some (some "abc"))) =
      CreateLabel.TokenResult.token "abc" :=
  (token_broker_contract (CreateLabel.TokenFetch.response 200 (some (some "abc")))).2.1
    200 "abc" rfl (by decide)

/-- C2 (amended): when required fields are missing the handler fails in
validation with HTTP 400, the error message lists exactly the missing field
names in declaration order, no label or Lob call is made, and the single
side effect is the one best-effort audit webhook post (which is network I/O
when the webhook is configured, contrary to the zero-network-calls reading
of the claim). -/
theorem validation_failure_behavior (cfg : MailLabel.Config) (req : MailLabel.Request)
    (w : MailLabel.World)
    (hm : req.method = "POST") (hu : cfg.mailUser ≠ []) (hp : cfg.mailPass ≠ [])
    (ha : MailLabel.parseBasicAuth req.authHeader = some (cfg.mailUser, cfg.mailPass))
    (hk : cfg.lobApiKey ≠ "")
    (hmiss : MailLabel.missingFields req.body ≠ []) :
    (MailLabel.handler cfg req w).1 =
      MailLabel.Resp.badRequest
        ("Missing required fields: " ++
          String.intercalate ", " (MailLabel.missingFields req.body)) none ∧
    (MailLabel.handler cfg req w).1.statusCode = 400 ∧
    MailLabel.missingFields req.body =
      requiredFields.filter (fun k => (requireField (fieldOf req.body k)).isNone) ∧
    Effect.labelFetch ∉ (MailLabel.handler cfg req w).2 ∧
    Effect.lobFetch ∉ (MailLabel.handler cfg req w).2 ∧
    auditPayloads (MailLabel.handler cfg req w).2 =
      [MailLabel.missingPayload req.body w (MailLabel.missingFields req.body)] := by
  have hh : MailLabel.handler cfg req w =
      MailLabel.respOf cfg req w
        (MailLabel.ExitPath.exMissing (MailLabel.missingFields req.body)) := by
    unfold MailLabel.handler
    rw [routeOf_postgate cfg req w hm hu hp ha hk, if_pos hmiss]
  rw [hh]
  refine ⟨rfl, rfl, missingFields_filter req.body, ?_, ?_, ?_⟩
  · intro hc
    simp [MailLabel.respOf] at hc
    exact auditEffect_ne_label _ _ hc.symm
  · intro hc
    simp [MailLabel.respOf] at hc
    exact auditEffect_ne_lob _ _ hc.symm
  · simp [MailLabel.respOf, auditPayloads_effect, auditPayloads]

/-- Counterexample for C2 as stated: with the webhook configured, a request
missing one field does fail validation with the exact message, but the
handler performs one network call (the audit webhook post), not zero. -/
theorem validation_network_counterexample :
    (MailLabel.handler mcfg0 reqMissingPhone w0).1 =
      MailLabel.Resp.badRequest "Missing required fields: phone" none ∧
    ((MailLabel.handler mcfg0 reqMissingPhone w0).2.filter networkEffect).length = 1 := by
  decide

/-- Witness for the amended C2 at a request missing only the phone field. -/
theorem validation_failure_behavior_witness :
    (MailLabel.handler mcfg0 reqMissingPhone w0).1.statusCode = 400 ∧
    Effect.labelFetch ∉ (MailLabel.handler mcfg0 reqMissingPhone w0).2 ∧
    auditPayloads (MailLabel.handler mcfg0 reqMissingPhone w0).2 =
      [MailLabel.missingPayload reqMissingPhone.body w0
        (MailLabel.missingFields reqMissingPhone.body)] := by
  obtain ⟨-, h2, -, h4, -, h6⟩ :=
    validation_failure_behavior mcfg0 reqMissingPhone w0 rfl (by decide) (by decide)
      (by decide) (by decide) (by decide)
  exact ⟨h2, h4, h6⟩

/-- C5: when the label stage succeeded (yielding tracking number `t`) and
the Lob letter submission fails, the single audit record posted before
returning carries that tracking number in `tracking_number` and a
`latest_event` naming the Lob HTTP status. -/
theorem mail_failure_audit (cfg : MailLabel.Config) (req : MailLabel.Request)
    (w : MailLabel.World) (t : String)
    (hm : req.method = "POST") (hu : cfg.mailUser ≠ []) (hp : cfg.mailPass ≠ [])
    (ha : MailLabel.parseBasicAuth req.authHeader = some (cfg.mailUser, cfg.mailPass))
    (hk : cfg.lobApiKey ≠ "")
    (hval : MailLabel.missingFields req.body = [])
    (hlbl : MailLabel.labelOkCheck w.labelResp = true)
    (hnc : w.composeCrash = none)
    (hlob : MailLabel.lobOkCheck w.lobResp = false)
    (htrk : MailLabel.trackingOf (MailLabel.labelJsonOf w.labelResp) = t)
    (_htne : t ≠ "") :
    auditPayloads (MailLabel.handler cfg req w).2 =
      [MailLabel.lobFailPayload req.body w (MailLabel.labelJsonOf w.labelResp) t] ∧
    lookupKey (MailLabel.lobFailPayload req.body w (MailLabel.labelJsonOf w.labelResp) t)
      "tracking_number" = some (JVal.str t) ∧
    lookupKey (MailLabel.lobFailPayload req.body w (MailLabel.labelJsonOf w.labelResp) t)
      "latest_event" =
      some (JVal.str ("Lob letter creation failed. HTTP " ++ toString w.lobResp.status)) := by
  have hh : MailLabel.handler cfg req w =
      MailLabel.respOf cfg req w MailLabel.ExitPath.exLobFail := by
    unfold MailLabel.handler
    rw [routeOf_postgate cfg req w hm hu hp ha hk, if_neg (by simp [hval]),
      if_neg (by simp [hlbl]), hnc]
    simp [hlob]
  rw [hh]
  refine ⟨?_, lobFailPayload_tracking _ _ _ _, lobFailPayload_latest _ _ _ _⟩
  simp [MailLabel.respOf, auditPayloads, auditPayloads_effect, htrk]

/-- Witness for C5 at a concrete run whose label stage yields a tracking
number and whose Lob call fails with HTTP 400. -/
theorem mail_failure_audit_witness :
    auditPayloads (MailLabel.handler mcfg0 reqFull wLobFail).2 =
      [MailLabel.lobFailPayload reqFull.body wLobFail
        (MailLabel.labelJsonOf wLobFail.labelResp) "9400100000000000000001"] ∧
    lookupKey (MailLabel.lobFailPayload reqFull.body wLobFail
        (MailLabel.labelJsonOf wLobFail.labelResp) "9400100000000000000001")
      "tracking_number" = some (JVal.str "9400100000000000000001") := by
  obtain ⟨h1, h2, -⟩ :=
    mail_failure_audit mcfg0 reqFull wLobFail "9400100000000000000001" rfl (by decide)
      (by decide) (by decide) (by decide) (by decide) (by decide) rfl (by decide)
      (by decide) (by decide)
  exact ⟨h1, h2⟩

/-- C6 (amended): the mail-label handler attempts exactly one audit record
on each of its post-gate exit paths (validation failure, label failure,
unhandled error, Lob failure, success), and every attempted payload carries
the full audit schema, with fields unknown at the point of failure present
as empty or null. A whole request attempt can nevertheless produce a second
audit attempt, because the handler does not set `skipLogging` on its nested
create-label call and that endpoint logs its own success. -/
theorem audit_exactly_once (cfg : MailLabel.Config) (req : MailLabel.Request)
    (w : MailLabel.World)
    (hm : req.method = "POST") (hu : cfg.mailUser ≠ []) (hp : cfg.mailPass ≠ [])
    (ha : MailLabel.parseBasicAuth req.authHeader = some (cfg.mailUser, cfg.mailPass))
    (hk : cfg.lobApiKey ≠ "") :
    (auditPayloads (MailLabel.handler cfg req w).2).length = 1 ∧
    ∀ p ∈ auditPayloads (MailLabel.handler cfg req w).2,
      payloadKeys p = MailLabel.auditSchema := by
  unfold MailLabel.handler
  rw [routeOf_postgate cfg req w hm hu hp ha hk]
  by_cases hmiss : MailLabel.missingFields req.body = []
  · rw [if_neg (by simp [hmiss])]
    cases hl : MailLabel.labelOkCheck w.labelResp
    · rw [if_pos rfl]
      simp [MailLabel.respOf, auditPayloads, auditPayloads_effect, labelFailPayload_keys]
    · rw [if_neg (by simp)]
      cases hcc : w.composeCrash with
      | some e =>
          simp [MailLabel.respOf, auditPayloads, auditPayloads_effect, crashPayload_keys]
      | none =>
          cases hlob : MailLabel.lobOkCheck w.lobResp
          · simp [MailLabel.respOf, auditPayloads, auditPayloads_effect, lobFailPayload_keys]
          · simp [MailLabel.respOf, auditPayloads, auditPayloads_effect, successPayload_keys]
  · rw [if_pos hmiss]
    simp [MailLabel.respOf, auditPayloads, auditPayloads_effect, missingPayload_keys]

/-- Counterexample for C6 as stated: a fully successful request attempt
through the composed system triggers two audit attempts, one from
create-label (its success row, since the mail handler forwards the body
without `skipLogging`) and one from the mail handler itself. -/
theorem double_audit_counterexample :
    (composedRun mcfg0 ccfg0 reqFull cw0 w0).1.statusCode = 200 ∧
    (auditPayloads (composedRun mcfg0 ccfg0 reqFull cw0 w0).2).length = 2 := by
  decide

/-- Witness for the amended C6 at a validation-failure run. -/
theorem audit_exactly_once_witness :
    (auditPayloads (MailLabel.handler mcfg0 reqMissingPhone w0).2).length = 1 :=
  (audit_exactly_once mcfg0 reqMissingPhone w0 rfl (by decide) (by decide) (by decide)
    (by decide)).1

/-- C7: with the inbound credentials configured, any POST whose Basic
credential is absent, unparsable, or mismatched gets the 401 response
before any field validation and before any network call (the effect trace
is empty), regardless of the request body. -/
theorem auth_gate_first (cfg : MailLabel.Config) (req : MailLabel.Request)
    (w : MailLabel.World)
    (hm : req.method = "POST") (hu : cfg.mailUser ≠ []) (hp : cfg.mailPass ≠ [])
    (hbad : MailLabel.parseBasicAuth req.authHeader ≠ some (cfg.mailUser, cfg.mailPass)) :
    (MailLabel.handler cfg req w).1 = MailLabel.Resp.unauthorizedResp ∧
    (MailLabel.handler cfg req w).1.statusCode = 401 ∧
    (MailLabel.handler cfg req w).2 = [] := by
  have hh : MailLabel.handler cfg req w =
      MailLabel.respOf cfg req w MailLabel.ExitPath.gateAuth := by
    unfold MailLabel.handler MailLabel.routeOf
    rw [if_neg (by simp [hm]), if_neg (by simp [hu, hp]), if_pos hbad]
  rw [hh]
  exact ⟨rfl, rfl, rfl⟩

/-- Witness for C7 at a credential decoding to `u:q` against configured
`u:p`. -/
theorem auth_gate_first_witness :
    (MailLabel.handler mcfg0 reqBadAuth w0).1.statusCode = 401 ∧
    (MailLabel.handler mcfg0 reqBadAuth w0).2 = [] := by
  obtain ⟨-, h2, h3⟩ :=
    auth_gate_first mcfg0 reqBadAuth w0 rfl (by decide) (by decide) (by decide)
  exact ⟨h2, h3⟩

/-- C8: the audit sink never fails its caller. With no webhook URL it
returns the skipped outcome with no network I/O; a transport error is
captured in the returned value; and the handler's response status never
depends on the sheets transport outcome, so the pipeline's success or
failure is unchanged by the audit write. -/
theorem audit_sink_never_fails (url : String) (t : Transport) (p : AuditPayload)
    (cfg : MailLabel.Config) (req : MailLabel.Request) (w : MailLabel.World)
    (t2 : Transport) :
    (url = "" → postToSheets url t p = (SheetsResult.skipped, [Effect.auditSkip p]) ∧
      (postToSheets url t p).2.filter networkEffect = []) ∧
    (∀ e, t = Transport.netError e → url ≠ "" →
      postToSheets url t p = (SheetsResult.errored e, [Effect.auditNet p])) ∧
    (MailLabel.handler cfg req { w with sheetsTransport := t }).1.statusCode =
      (MailLabel.handler cfg req { w with sheetsTransport := t2 }).1.statusCode := by
  refine ⟨?_, ?_, ?_⟩
  · intro h
    subst h
    cases t <;> simp [postToSheets, networkEffect]
  · intro e he hne
    subst he
    simp [postToSheets, hne]
  · have hr : MailLabel.routeOf cfg req { w with sheetsTransport := t } =
        MailLabel.routeOf cfg req { w with sheetsTransport := t2 } := rfl
    unfold MailLabel.handler
    rw [hr]
    cases MailLabel.routeOf cfg req { w with sheetsTransport := t2 } <;>
      simp [MailLabel.respOf, MailLabel.Resp.statusCode]

/-- Witness for C8: a skipped write and a captured transport error. -/
theorem audit_sink_never_fails_witness :
    postToSheets "" (Transport.netError "boom") [] =
      (SheetsResult.skipped, [Effect.auditSkip []]) ∧
    postToSheets "https://sheets.example/hook" (Transport.netError "boom") [] =
      (SheetsResult.errored "boom", [Effect.auditNet []]) := by
  refine ⟨((audit_sink_never_fails "" (Transport.netError "boom") [] mcfg0 reqFull w0
    (Transport.ok true 200)).1 rfl).1, ?_⟩
  exact (audit_sink_never_fails "https://sheets.example/hook" (Transport.netError "boom")
    [] mcfg0 reqFull w0 (Transport.ok true 200)).2.1 "boom" rfl (by decide)

/-- C10: on the success path, when the carrier omitted or returned an empty
tracking number, the response's `uspsTrackingNumber` is null (`none`, never
the empty string), and the success audit record still has status Created
with a `latest_event` noting that no tracking number was returned. -/
theorem success_null_tracking (cfg : MailLabel.Config) (req : MailLabel.Request)
    (w : MailLabel.World)
    (hm : req.method = "POST") (hu : cfg.mailUser ≠ []) (hp : cfg.mailPass ≠ [])
    (ha : MailLabel.parseBasicAuth req.authHeader = some (cfg.mailUser, cfg.mailPass))
    (hk : cfg.lobApiKey ≠ "")
    (hval : MailLabel.missingFields req.body = [])
    (hlbl : MailLabel.labelOkCheck w.labelResp = true)
    (hnc : w.composeCrash = none)
    (hlob : MailLabel.lobOkCheck w.lobResp = true)
    (h1 : truthyS (MailLabel.labelJsonOf w.labelResp).trackingNumber = false)
    (h2 : truthyS (MailLabel.labelJsonOf w.labelResp).tracking_number = false) :
    (MailLabel.handler cfg req w).1 =
      MailLabel.Resp.success none (orEmpty (MailLabel.lobJsonOf w.lobResp).id)
        (jsOrNull (MailLabel.lobJsonOf w.lobResp).status)
        (postToSheets cfg.sheetsWebhookUrl w.sheetsTransport
          (MailLabel.successPayload req.body w (MailLabel.labelJsonOf w.labelResp) ""
            (orEmpty (MailLabel.lobJsonOf w.lobResp).id))).1 ∧
    lookupKey (MailLabel.successPayload req.body w (MailLabel.labelJsonOf w.labelResp) ""
        (orEmpty (MailLabel.lobJsonOf w.lobResp).id)) "latest_event" =
      some (JVal.str
        "Return label created (no tracking number returned); physical packet mailed.") ∧
    lookupKey (MailLabel.successPayload req.body w (MailLabel.labelJsonOf w.labelResp) ""
        (orEmpty (MailLabel.lobJsonOf w.lobResp).id)) "status" =
      some (JVal.str "Created") ∧
    auditPayloads (MailLabel.handler cfg req w).2 =
      [MailLabel.successPayload req.body w (MailLabel.labelJsonOf w.labelResp) ""
        (orEmpty (MailLabel.lobJsonOf w.lobResp).id)] := by
  have htrk := trackingOf_empty (MailLabel.labelJsonOf w.labelResp) h1 h2
  have hh : MailLabel.handler cfg req w =
      MailLabel.respOf cfg req w MailLabel.ExitPath.exSuccess := by
    unfold MailLabel.handler
    rw [routeOf_postgate cfg req w hm hu hp ha hk, if_neg (by simp [hval]),
      if_neg (by simp [hlbl]), hnc]
    simp [hlob]
  rw [hh]
  refine ⟨?_, successPayload_latest_noTrack _ _ _ _,
    successPayload_status _ _ _ _ _, ?_⟩
  · simp [MailLabel.respOf, htrk]
  · simp [MailLabel.respOf, auditPayloads, auditPayloads_effect, htrk]

/-- Witness for C10 at a run whose label succeeded with no tracking number
and whose Lob call succeeded. -/
theorem success_null_tracking_witness :
    (MailLabel.handler mcfg0 reqFull wNoTrack).1 =
      MailLabel.Resp.success none (orEmpty (MailLabel.lobJsonOf wNoTrack.lobResp).id)
        (jsOrNull (MailLabel.lobJsonOf wNoTrack.lobResp).status)
        (postToSheets mcfg0.sheetsWebhookUrl wNoTrack.sheetsTransport
          (MailLabel.successPayload reqFull.body wNoTrack
            (MailLabel.labelJsonOf wNoTrack.labelResp) ""
            (orEmpty (MailLabel.lobJsonOf wNoTrack.lobResp).id))).1 ∧
    lookupKey (MailLabel.successPayload reqFull.body wNoTrack
        (MailLabel.labelJsonOf wNoTrack.labelResp) ""
        (orEmpty (MailLabel.lobJsonOf wNoTrack.lobResp).id)) "latest_event" =
      some (JVal.str
        "Return label created (no tracking number returned); physical packet mailed.") := by
  obtain ⟨hA, hB, -, -⟩ :=
    success_null_tracking mcfg0 reqFull wNoTrack rfl (by decide) (by decide) (by decide)
      (by decide) (by decide) (by decide) rfl (by decide) (by decide) (by decide)
  exact ⟨hA, hB⟩

end CAPrint
